import Mathlib

/-!
Verification of the action-sequence execution engine of
`spotify_llm_controller` (file `src/spotify_llm_controller/spotify_actions.py`),
shallowly embedded in Lean 4.

Python dictionaries are modelled as insertion-ordered association lists over
a JSON-like value type `JVal`; Python exceptions are modelled by the `PyErr`
type threaded through `Except`; the remote MCP session is modelled as a
function from tool name and parameters to a result (deterministic per call,
which is the setting of every claim about the handlers and the executor; the
attempt-indexed retry loop is modelled separately and related to the
deterministic case by `retryLoop_const_ok` / `retryLoop_const_error`).
-/

/-- A JSON-like Python value (the values stored in the string-keyed
dictionaries that the Python module passes around). -/
inductive JVal where
  | null : JVal
  | bool : Bool → JVal
  | num : Int → JVal
  | str : String → JVal
  | arr : List JVal → JVal
  | obj : List (String × JVal) → JVal
  deriving Repr

/-- A Python dictionary with string keys: an insertion-ordered association
list with unique keys (maintained by `dset`). -/
abbrev Dict := List (String × JVal)

/-- `d.get(k)`: the value at key `k`, if present (first binding wins). -/
def dget (d : Dict) (k : String) : Option JVal :=
  (d.find? (fun p => p.1 == k)).map (·.2)

/-- `d[k] = v`: replace the value at `k` in place if present, else append. -/
def dset (d : Dict) (k : String) (v : JVal) : Dict :=
  if (d.find? (fun p => p.1 == k)).isSome then
    d.map (fun p => if p.1 == k then (p.1, v) else p)
  else
    d ++ [(k, v)]

/-- `k in d`: key membership test. -/
def hasKey (d : Dict) (k : String) : Bool :=
  (dget d k).isSome

/-- Python truthiness of a value. -/
def JVal.truthy : JVal → Bool
  | .null => false
  | .bool b => b
  | .num n => n != 0
  | .str s => s != ""
  | .arr xs => !xs.isEmpty
  | .obj fs => !fs.isEmpty

/-- Python truthiness of an optional value (`None` is falsy). -/
def optTruthy : Option JVal → Bool
  | none => false
  | some v => v.truthy

/-- Python `v == "s"` for a string literal: only a `str` compares equal. -/
def isStrEqV (v : JVal) (s : String) : Bool :=
  match v with
  | .str t => t == s
  | _ => false

/-- Python `d.get(k) == "s"` (a missing key gives `None`, which is not equal
to any string). -/
def isStrEq (o : Option JVal) (s : String) : Bool :=
  match o with
  | some v => isStrEqV v s
  | none => false

/-- A Python exception, as raised by the embedded code. `str(e)` is
`pyErrStr`. -/
inductive PyErr where
  | keyErr (k : String)
  | indexErr
  | typeErr (msg : String)
  | attrErr (msg : String)
  | jsonDecode
  | other (msg : String)
  deriving Repr, DecidableEq

/-- `str(e)` for a `PyErr` (the message the executor's top-level handler
puts into the `error` field). -/
def pyErrStr : PyErr → String
  | .keyErr k => "'" ++ k ++ "'"
  | .indexErr => "list index out of range"
  | .typeErr m => m
  | .attrErr m => m
  | .jsonDecode => "Expecting value: line 1 column 1 (char 0)"
  | .other m => m

mutual

/-- Python `str()` rendering of a value as it appears interpolated into an
f-string. Containers are rendered canonically; no claim observes the exact
rendering of a non-string value. -/
def JVal.render : JVal → String
  | .null => "None"
  | .bool b => if b then "True" else "False"
  | .num n => toString n
  | .str s => "'" ++ s ++ "'"
  | .arr xs => "[" ++ JVal.renderList xs ++ "]"
  | .obj fs => "\x7b" ++ JVal.renderObj fs ++ "\x7d"

def JVal.renderList : List JVal → String
  | [] => ""
  | [x] => JVal.render x
  | x :: y :: xs => JVal.render x ++ ", " ++ JVal.renderList (y :: xs)

def JVal.renderObj : List (String × JVal) → String
  | [] => ""
  | [(k, v)] => "'" ++ k ++ "': " ++ JVal.render v
  | (k, v) :: p :: fs =>
      "'" ++ k ++ "': " ++ JVal.render v ++ ", " ++ JVal.renderObj (p :: fs)

end

/-- Python `str(v)` at top level (a bare string loses its quotes). -/
def pyStr : JVal → String
  | .str s => s
  | v => v.render

/-- Python `str()` of an optional value (`None` renders as `"None"`). -/
def pyStrOpt : Option JVal → String
  | none => "None"
  | some v => pyStr v

/-- The `text` attribute of one element of a remote result's `content`
sequence: absent, a string that is not valid JSON, or a string whose JSON
parse is `v` (the text bytes are modelled canonically by `JVal.render`). -/
inductive TextVal where
  | raw (s : String)
  | json (v : JVal)
  deriving Repr

/-- The raw string content of a `text` attribute. -/
def textStr : TextVal → String
  | .raw s => s
  | .json v => v.render

/-- `json.loads` applied to a `text` payload. -/
def jloads : TextVal → Except PyErr JVal
  | .raw _ => .error .jsonDecode
  | .json v => .ok v

/-- One element of a remote result's `content` list
(`none` models an element without a `text` attribute). -/
abbrev ContentMsg := Option TextVal

/-- The remote tool result (`CallToolResult`): `isError` flag plus a
`content` sequence. -/
structure RemoteResult where
  isError : Bool
  content : List ContentMsg
  deriving Repr

/-- `next((msg.text for msg in content if hasattr(msg, 'text')), default)`:
the first `text` attribute in the content list. -/
def firstText (content : List ContentMsg) : Option TextVal :=
  content.findSome? id

/-- The remote session, specialised to deterministic per-call behaviour:
`callTool name params` either raises or returns a result object (`none`
models Python `None`). -/
abbrev SessionFn := String → Dict → Except PyErr (Option RemoteResult)

/-! ## Retrying Invoker (`call_tool_with_retry`, lines 15-44)

Modelled over an attempt-indexed tool behaviour so that the claims about
call counts and backoff sleeps are statable. The output records the result
(`.ok none` models the `None` Python returns when the `while` loop is never
entered), the number of calls performed and the list of sleep durations. -/

/-- Observable outcome of the retry loop: result, call count, sleeps. -/
structure RetryOut (A : Type) where
  res : Except PyErr (Option A)
  calls : Nat
  sleeps : List ℚ
  deriving Repr

/-- The `while retries < max_retries` loop of `call_tool_with_retry`:
each iteration performs one call (`tool ncalls`); a success returns at once;
a failure increments `retries`, re-raises when `retries >= max_retries`, and
otherwise sleeps `RETRY_DELAY * 2 ** (retries - 1)` seconds and loops. -/
def retryLoop (tool : Nat → Except PyErr A) (maxRetries : Nat) (baseDelay : ℚ)
    (retries ncalls : Nat) (sleeps : List ℚ) : RetryOut A :=
  if retries < maxRetries then
    match tool ncalls with
    | .ok a => ⟨.ok (some a), ncalls + 1, sleeps⟩
    | .error e =>
      if retries + 1 ≥ maxRetries then ⟨.error e, ncalls + 1, sleeps⟩
      else retryLoop tool maxRetries baseDelay (retries + 1) (ncalls + 1)
             (sleeps ++ [baseDelay * 2 ^ retries])
  else ⟨.ok none, ncalls, sleeps⟩
termination_by maxRetries - retries

/-- `call_tool_with_retry(session, tool_name, params, max_retries)` with the
session's behaviour for this tool and these parameters abstracted as the
attempt-indexed function `tool`. -/
def call_tool_with_retry (tool : Nat → Except PyErr A) (maxRetries : Nat)
    (baseDelay : ℚ) : RetryOut A :=
  retryLoop tool maxRetries baseDelay 0 0 []

/-! ## Python operations used by the handlers -/

/-- Python `v[k]` for a string key `k`. -/
def jGetKey (v : JVal) (k : String) : Except PyErr JVal :=
  match v with
  | .obj fs =>
    match dget fs k with
    | some w => .ok w
    | none => .error (.keyErr k)
  | _ => .error (.typeErr "value is not subscriptable by a string key")

/-- Python `v[0]`. -/
def jIndex0 (v : JVal) : Except PyErr JVal :=
  match v with
  | .arr [] => .error .indexErr
  | .arr (x :: _) => .ok x
  | .str s =>
    match s.data with
    | [] => .error .indexErr
    | c :: _ => .ok (.str (String.mk [c]))
  | .obj _ => .error (.keyErr "0")
  | _ => .error (.typeErr "value is not subscriptable")

/-- Python `k in v` for a string `k` (key membership for a dict, substring
test for a string, element equality for a list). -/
def jInOp (k : String) (v : JVal) : Except PyErr Bool :=
  match v with
  | .obj fs => .ok (hasKey fs k)
  | .str s => .ok ((s.splitOn k).length != 1)
  | .arr xs => .ok (xs.any (fun w => isStrEqV w k))
  | _ => .error (.typeErr "argument is not iterable")

/-- Python `isinstance(v, list)`. -/
def isList : JVal → Bool
  | .arr _ => true
  | _ => false

/-- Python `v.get(k)` where `v` must be a dict (`AttributeError` otherwise). -/
def jGetAttr (v : JVal) (k : String) : Except PyErr (Option JVal) :=
  match v with
  | .obj fs => .ok (dget fs k)
  | _ => .error (.attrErr "object has no attribute get")

/-- Python `len(v)` (TypeError on a value with no length). -/
def jLen (v : JVal) : Except PyErr Nat :=
  match v with
  | .str s => .ok s.length
  | .arr xs => .ok xs.length
  | .obj fs => .ok fs.length
  | _ => .error (.typeErr "object has no length")

/-- The error-record `StepOutcome` shape: a dict with a single `error` key. -/
def mkErr (m : String) : Dict := [("error", .str m)]

/-! ## Action Handlers (lines 46-446)

Each handler returns a `HandlerOut`: the `StepOutcome` dict (or an uncaught
exception), the final state of the (mutated in place) `params` and `context`
dicts, and the invocations of the Retrying Invoker it performed. The session
is deterministic per call, so each `call_tool_with_retry` inside a handler
behaves as one `σ` call (`retryLoop_const_ok` / `retryLoop_const_error`
below relate this to the attempt-indexed model). -/

/-- Result of one handler call: outcome or uncaught exception, final
`params` and `context` contents, and the Retrying-Invoker invocations
performed (tool name and the parameters passed). -/
structure HandlerOut where
  res : Except PyErr Dict
  params : Dict
  ctx : Dict
  calls : List (String × Dict)
  deriving Repr

/-- The exceptions the search handler's `except` clause catches
(`json.JSONDecodeError, KeyError, IndexError`). -/
def searchCaught : PyErr → Bool
  | .jsonDecode => true
  | .keyErr _ => true
  | .indexErr => true
  | _ => false

/-- Artist extraction from a chosen item (lines 77-83 and 97-103): prefer
a list-typed `artists` field (first element), else the scalar `artist`
field, else default "Unknown Artist". -/
def searchArtist (item : JVal) : Except PyErr JVal :=
  match jInOp "artists" item with
  | .error e => .error e
  | .ok true =>
    match jGetKey item "artists" with
    | .error e => .error e
    | .ok av =>
      if isList av then jIndex0 av
      else
        match jGetAttr item "artist" with
        | .error e => .error e
        | .ok d => .ok (d.getD (.str "Unknown Artist"))
  | .ok false =>
    match jGetAttr item "artist" with
    | .error e => .error e
    | .ok d => .ok (d.getD (.str "Unknown Artist"))

/-- The `try` block of `handle_search_action` (lines 66-124): decode the
first text payload, pick the first album or track, extract the artist,
and build the normalized `SearchResult`. -/
def searchParse (params : Dict) (r : RemoteResult) : Except PyErr Dict :=
  match jloads ((firstText r.content).getD (.json (.obj []))) with
  | .error e => .error e
  | .ok result_data =>
    let condAlbumE : Except PyErr Bool :=
      if isStrEq (dget params "qtype") "album" then
        match jGetAttr result_data "albums" with
        | .error e => .error e
        | .ok a => .ok (optTruthy a)
      else .ok false
    match condAlbumE with
    | .error e => .error e
    | .ok true =>
      match jGetKey result_data "albums" with
      | .error e => .error e
      | .ok albumsV =>
        match jIndex0 albumsV with
        | .error e => .error e
        | .ok album =>
          match searchArtist album with
          | .error e => .error e
          | .ok artist =>
            match jGetKey album "name" with
            | .error e => .error e
            | .ok nm =>
              match jGetKey album "id" with
              | .error e => .error e
              | .ok idv =>
                .ok [("action", .str "search"),
                     ("result", .obj [("name", nm),
                                      ("uri", .str ("spotify:album:" ++ pyStr idv)),
                                      ("id", idv),
                                      ("artist", artist),
                                      ("type", .str "album")])]
    | .ok false =>
      match jGetAttr result_data "tracks" with
      | .error e => .error e
      | .ok t =>
        if optTruthy t then
          match jGetKey result_data "tracks" with
          | .error e => .error e
          | .ok tracksV =>
            match jIndex0 tracksV with
            | .error e => .error e
            | .ok track =>
              match searchArtist track with
              | .error e => .error e
              | .ok artist =>
                match jGetKey track "name" with
                | .error e => .error e
                | .ok nm =>
                  match jGetKey track "id" with
                  | .error e => .error e
                  | .ok idv =>
                    .ok [("action", .str "search"),
                         ("result", .obj [("name", nm),
                                          ("uri", .str ("spotify:track:" ++ pyStr idv)),
                                          ("id", idv),
                                          ("artist", artist),
                                          ("type", .str "track")])]
        else
          .ok (mkErr ("No results found for query: " ++ pyStrOpt (dget params "query")))

/-- `handle_search_action` (lines 46-124). Never touches `params` or the
context. -/
def handle_search_action (σ : SessionFn) (params ctx : Dict) : HandlerOut :=
  match σ "SpotifySearch" params with
  | .error e => ⟨.error e, params, ctx, [("SpotifySearch", params)]⟩
  | .ok result =>
    let res : Except PyErr Dict :=
      match result with
      | none => .ok (mkErr "No search results found")
      | some r =>
        if r.isError then .ok (mkErr "No search results found")
        else
          match searchParse params r with
          | .ok d => .ok d
          | .error e =>
            if searchCaught e then .ok (mkErr "Failed to parse search results")
            else .error e
    ⟨res, params, ctx, [("SpotifySearch", params)]⟩

/-- The exceptions `handle_get_info_action`'s `except` clause catches
(`json.JSONDecodeError, KeyError`). -/
def getInfoCaught : PyErr → Bool
  | .jsonDecode => true
  | .keyErr _ => true
  | _ => false

/-- Result of the `try` block of `handle_get_info_action`: either the
empty-tracks outcome, or the decoded payload together with the `tracks`
value that gets stored into the context. -/
inductive GetInfoRes where
  | noTracks : GetInfoRes
  | good (album_data album_tracks : JVal) : GetInfoRes
  deriving Repr

/-- The `try` block of `handle_get_info_action` (lines 153-166), up to and
excluding the context write. -/
def getInfoParse (r : RemoteResult) : Except PyErr GetInfoRes :=
  match jloads ((firstText r.content).getD (.json (.obj []))) with
  | .error e => .error e
  | .ok album_data =>
    match jGetAttr album_data "tracks" with
    | .error e => .error e
    | .ok t =>
      let album_tracks := t.getD (.arr [])
      if album_tracks.truthy then .ok (.good album_data album_tracks)
      else .ok .noTracks

/-- The `item_uri` fill of `handle_get_info_action` (lines 139-142). -/
def getInfoFill (params : Dict) (sr : Option JVal) : Except PyErr Dict :=
  if optTruthy sr && !(optTruthy (dget params "item_uri")) then
    match jGetKey (sr.getD .null) "uri" with
    | .ok u => .ok (dset params "item_uri" u)
    | .error e => .error e
  else .ok params

/-- `handle_get_info_action` (lines 126-169): fill `item_uri` from the
context's search result when absent, call the tool, and on success store
the album's tracks into the context. -/
def handle_get_info_action (σ : SessionFn) (params ctx : Dict) : HandlerOut :=
  let sr := dget ctx "search_result"
  match getInfoFill params sr with
  | .error e => ⟨.error e, params, ctx, []⟩
  | .ok params' =>
    match σ "SpotifyGetInfo" params' with
    | .error e => ⟨.error e, params', ctx, [("SpotifyGetInfo", params')]⟩
    | .ok none =>
      ⟨.error (.attrErr "NoneType object has no attribute isError"), params', ctx,
       [("SpotifyGetInfo", params')]⟩
    | .ok (some r) =>
      if r.isError then
        ⟨.ok (mkErr "Failed to get album tracks"), params', ctx,
         [("SpotifyGetInfo", params')]⟩
      else
        match getInfoParse r with
        | .ok .noTracks =>
          ⟨.ok (mkErr "No tracks found in album"), params', ctx,
           [("SpotifyGetInfo", params')]⟩
        | .ok (.good album_data album_tracks) =>
          ⟨.ok [("action", .str "get_info"), ("result", album_data)], params',
           dset ctx "album_tracks" album_tracks, [("SpotifyGetInfo", params')]⟩
        | .error e =>
          if getInfoCaught e then
            ⟨.ok (mkErr "Failed to parse album information"), params', ctx,
             [("SpotifyGetInfo", params')]⟩
          else ⟨.error e, params', ctx, [("SpotifyGetInfo", params')]⟩

/-- The `spotify_uri` fill of `handle_playback_action` (lines 187-200). -/
def playbackFill (params : Dict) (sr : Option JVal) : Except PyErr Dict :=
  if isStrEq (dget params "action") "start" then
    if optTruthy sr && !(optTruthy (dget params "spotify_uri")) then
      match jGetKey (sr.getD .null) "uri" with
      | .error e => .error e
      | .ok u =>
        match jInOp ":" u with
        | .error e => .error e
        | .ok hasColon =>
          if !hasColon then
            .ok (dset params "spotify_uri" (.str ("spotify:track:" ++ pyStr u)))
          else .ok (dset params "spotify_uri" u)
    else .ok params
  else .ok params

/-- The remote call and outcome formatting of `handle_playback_action`
(lines 206-265), after the `spotify_uri` fill: returns the step outcome (or
uncaught exception) and the Retrying-Invoker invocations. -/
def playbackAfterFill (σ : SessionFn) (params' : Dict) (sr : Option JVal) :
    Except PyErr Dict × List (String × Dict) :=
  match σ "SpotifyPlayback" params' with
  | .error e => (.error e, [("SpotifyPlayback", params')])
  | .ok none =>
    (.error (.attrErr "NoneType object has no attribute isError"),
     [("SpotifyPlayback", params')])
  | .ok (some r) =>
    if r.isError then
      let error_msg := "Playback action failed: " ++ pyStrOpt (dget params' "action")
      let error_content := ((firstText r.content).map textStr).getD ""
      (.ok (mkErr (error_msg ++ ": " ++ error_content)), [("SpotifyPlayback", params')])
    else
      let res : Except PyErr Dict :=
        if isStrEq (dget params' "action") "start" then
          match sr with
          | some srv =>
            if srv.truthy then
              match jGetKey srv "type" with
              | .error e => .error e
              | .ok tv =>
                let item_type := if isStrEqV tv "album" then "album" else "track"
                match jGetKey srv "name" with
                | .error e => .error e
                | .ok nm =>
                  match jGetKey srv "artist" with
                  | .error e => .error e
                  | .ok ar =>
                    .ok [("action", .str "playback"),
                         ("type", (dget params' "action").getD .null),
                         ("message",
                          .str ("Playing " ++ item_type ++ " " ++ pyStr nm ++
                                " by " ++ pyStr ar)),
                         ("item", srv)]
            else
              .ok [("action", .str "playback"), ("type", .str "resume"),
                   ("message", .str "Resuming playback")]
          | none =>
            .ok [("action", .str "playback"), ("type", .str "resume"),
                 ("message", .str "Resuming playback")]
        else if isStrEq (dget params' "action") "pause" then
          .ok [("action", .str "playback"), ("type", .str "pause"),
               ("message", .str "Playback paused")]
        else if isStrEq (dget params' "action") "skip" then
          .ok [("action", .str "playback"), ("type", .str "skip"),
               ("message", .str "Skipped to next track")]
        else
          .ok [("action", .str "playback"),
               ("type", (dget params' "action").getD (.str "unknown")),
               ("message", .str "Playback command executed")]
      (res, [("SpotifyPlayback", params')])

/-- `handle_playback_action` (lines 171-265): for a `start` action with no
explicit URI, fill `spotify_uri` from the context's search result
(prefixing `spotify:track:` when the stored URI has no colon); call the
tool; format the outcome per action. Never touches the context. -/
def handle_playback_action (σ : SessionFn) (params ctx : Dict) : HandlerOut :=
  let sr := dget ctx "search_result"
  match playbackFill params sr with
  | .error e => ⟨.error e, params, ctx, []⟩
  | .ok params' =>
    let rc := playbackAfterFill σ params' sr
    ⟨rc.1, params', ctx, rc.2⟩

/-- The `track_id` fill of `handle_queue_action` (lines 288-291). -/
def queueFill (params : Dict) (sr : Option JVal) : Except PyErr Dict :=
  if optTruthy sr && !(optTruthy (dget params "track_id")) then
    match jGetKey (sr.getD .null) "uri" with
    | .ok u => .ok (dset params "track_id" u)
    | .error e => .error e
  else .ok params

/-- The remote call and outcome formatting of `handle_queue_action`
(lines 297-332), after the `track_id` fill. -/
def queueAfterFill (σ : SessionFn) (params' : Dict) (sr : Option JVal) :
    Except PyErr Dict × List (String × Dict) :=
  match σ "SpotifyQueue" params' with
  | .error e => (.error e, [("SpotifyQueue", params')])
  | .ok none =>
    (.error (.attrErr "NoneType object has no attribute isError"),
     [("SpotifyQueue", params')])
  | .ok (some r) =>
    if r.isError then
      let error_content := ((firstText r.content).map textStr).getD ""
      (.ok (mkErr ("Failed to add to queue" ++ ": " ++ error_content)),
       [("SpotifyQueue", params')])
    else
      let res : Except PyErr Dict :=
        match sr with
        | some srv =>
          if srv.truthy then
            match jGetKey srv "type" with
            | .error e => .error e
            | .ok tv =>
              let item_type := if isStrEqV tv "album" then "album" else "track"
              match jGetKey srv "name" with
              | .error e => .error e
              | .ok nm =>
                match jGetKey srv "artist" with
                | .error e => .error e
                | .ok ar =>
                  .ok [("action", .str "queue"),
                       ("message",
                        .str ("Added " ++ item_type ++ " " ++ pyStr nm ++
                              " by " ++ pyStr ar ++ " to queue")),
                       ("item", srv)]
          else
            .ok [("action", .str "queue"),
                 ("message", .str "Added item to queue")]
        | none =>
          .ok [("action", .str "queue"),
               ("message", .str "Added item to queue")]
      (res, [("SpotifyQueue", params')])

/-- `handle_queue_action` (lines 267-332): require an explicit `track_id` or
a context search result (filling `track_id` from the latter); call the tool;
format the outcome. Never touches the context. -/
def handle_queue_action (σ : SessionFn) (params ctx : Dict) : HandlerOut :=
  let sr := dget ctx "search_result"
  if !(optTruthy (dget params "track_id")) && !(optTruthy sr) then
    ⟨.ok (mkErr "No track ID available for queue"), params, ctx, []⟩
  else
    match queueFill params sr with
    | .error e => ⟨.error e, params, ctx, []⟩
    | .ok params' =>
      let rc := queueAfterFill σ params' sr
      ⟨rc.1, params', ctx, rc.2⟩

/-- The `try` body for playlist `get`/`get_tracks`: decode the first text
payload and measure its length. -/
def playlistParse (r : RemoteResult) : Except PyErr (JVal × Nat) :=
  match jloads ((firstText r.content).getD (.json (.obj []))) with
  | .error e => .error e
  | .ok v =>
    match jLen v with
    | .error e => .error e
    | .ok n => .ok (v, n)

/-- The body of `handle_playlist_action` (lines 334-418): the step outcome
(or uncaught exception) and the Retrying-Invoker invocations. -/
def playlistCore (σ : SessionFn) (params : Dict) :
    Except PyErr Dict × List (String × Dict) :=
  let action_type := dget params "action"
  if isStrEq action_type "get" then
    match σ "SpotifyPlaylist" params with
    | .error e => (.error e, [("SpotifyPlaylist", params)])
    | .ok none =>
      (.error (.attrErr "NoneType object has no attribute isError"), [("SpotifyPlaylist", params)])
    | .ok (some r) =>
      if r.isError then
        (.ok (mkErr "Failed to get playlists"), [("SpotifyPlaylist", params)])
      else
        match playlistParse r with
        | .ok (playlists, n) =>
          (.ok [("action", .str "playlist_get"),
                ("message", .str ("Found " ++ toString n ++ " playlists")),
                ("playlists", playlists)], [("SpotifyPlaylist", params)])
        | .error _ =>
          (.ok (mkErr "Failed to parse playlists"), [("SpotifyPlaylist", params)])
  else if isStrEq action_type "get_tracks" then
    if !(optTruthy (dget params "playlist_id")) then
      (.ok (mkErr "playlist_id is required for get_tracks action"), [])
    else
      match σ "SpotifyPlaylist" params with
      | .error e => (.error e, [("SpotifyPlaylist", params)])
      | .ok none =>
        (.error (.attrErr "NoneType object has no attribute isError"), [("SpotifyPlaylist", params)])
      | .ok (some r) =>
        if r.isError then
          (.ok (mkErr "Failed to get playlist tracks"), [("SpotifyPlaylist", params)])
        else
          match playlistParse r with
          | .ok (tracks, n) =>
            (.ok [("action", .str "playlist_get_tracks"),
                  ("message", .str ("Found " ++ toString n ++ " tracks in playlist")),
                  ("tracks", tracks)], [("SpotifyPlaylist", params)])
          | .error _ =>
            (.ok (mkErr "Failed to parse playlist tracks"), [("SpotifyPlaylist", params)])
  else if isStrEq action_type "add_tracks" || isStrEq action_type "remove_tracks" then
    if !(optTruthy (dget params "playlist_id")) || !(optTruthy (dget params "track_ids")) then
      (.ok (mkErr ("playlist_id and track_ids are required for " ++
                   pyStrOpt action_type ++ " action")), [])
    else
      match σ "SpotifyPlaylist" params with
      | .error e => (.error e, [("SpotifyPlaylist", params)])
      | .ok none =>
        (.error (.attrErr "NoneType object has no attribute isError"), [("SpotifyPlaylist", params)])
      | .ok (some r) =>
        if r.isError then
          (.ok (mkErr ("Failed to " ++
                       (if isStrEq action_type "add_tracks" then "add tracks"
                        else "remove tracks"))), [("SpotifyPlaylist", params)])
        else
          let action_name :=
            if isStrEq action_type "add_tracks" then "added to" else "removed from"
          (.ok [("action", .str ("playlist_" ++ pyStrOpt action_type)),
                ("message", .str ("Tracks " ++ action_name ++ " playlist"))],
           [("SpotifyPlaylist", params)])
  else if isStrEq action_type "change_details" then
    if !(optTruthy (dget params "playlist_id")) ||
       (!(optTruthy (dget params "name")) && !(optTruthy (dget params "description"))) then
      (.ok (mkErr "playlist_id and at least one of name or description are required"),
       [])
    else
      match σ "SpotifyPlaylist" params with
      | .error e => (.error e, [("SpotifyPlaylist", params)])
      | .ok none =>
        (.error (.attrErr "NoneType object has no attribute isError"), [("SpotifyPlaylist", params)])
      | .ok (some r) =>
        if r.isError then
          (.ok (mkErr "Failed to change playlist details"), [("SpotifyPlaylist", params)])
        else
          (.ok [("action", .str "playlist_change_details"),
                ("message", .str "Playlist details updated")], [("SpotifyPlaylist", params)])
  else
    (.ok (mkErr ("Unknown playlist action: " ++ pyStrOpt action_type)), [])

/-- `handle_playlist_action` (lines 334-418): sub-dispatch on the `action`
parameter. Never touches `params` or the context. -/
def handle_playlist_action (σ : SessionFn) (params ctx : Dict) : HandlerOut :=
  let rc := playlistCore σ params
  ⟨rc.1, params, ctx, rc.2⟩

/-- `execute_single_action` (lines 420-446): the Action Dispatcher, a pure
routing table over the five tool kinds. -/
def execute_single_action (σ : SessionFn) (tool_name : String) (params ctx : Dict) :
    HandlerOut :=
  if tool_name == "SpotifySearch" then handle_search_action σ params ctx
  else if tool_name == "SpotifyGetInfo" then handle_get_info_action σ params ctx
  else if tool_name == "SpotifyPlayback" then handle_playback_action σ params ctx
  else if tool_name == "SpotifyQueue" then handle_queue_action σ params ctx
  else if tool_name == "SpotifyPlaylist" then handle_playlist_action σ params ctx
  else ⟨.ok (mkErr ("Unsupported action: " ++ tool_name)), params, ctx, []⟩

/-! ## Response Formatter and Sequence Executor (lines 448-530) -/

/-- `format_final_response` (lines 448-477): partition the outcomes by the
presence of an `error` key and reduce to one final response. Accessing the
last element of an empty list raises `IndexError`; concatenating the
partial-failure suffix to a non-string message raises `TypeError`. -/
def format_final_response (results : List Dict) : Except PyErr Dict :=
  let all_errors := results.filter (fun r => hasKey r "error")
  if !all_errors.isEmpty then
    if all_errors.length == results.length then
      match all_errors.getLast? with
      | some lastE => .ok lastE
      | none => .error .indexErr
    else
      let successful_actions := results.filter (fun r => !(hasKey r "error"))
      match successful_actions.getLast? with
      | some lastS =>
        match (dget lastS "message").getD (.str "Partial success") with
        | .str m =>
          .ok [("message", .str (m ++ "\nSome actions failed")),
               ("details", .obj [("success", .obj lastS),
                                 ("errors", .arr (all_errors.map .obj))])]
        | _ => .error (.typeErr "can only concatenate str to str")
      | none => .error .indexErr
  else
    match results.getLast? with
    | some lastR =>
      .ok [("message", (dget lastR "message").getD (.str "Command executed successfully")),
           ("details", .obj lastR)]
    | none => .error .indexErr

/-- One abstract action handed to the executor. -/
structure SAction where
  tool_name : String
  params : Dict
  deriving Repr

/-- Instrumented state of the executor loop: the accumulated `results` list
and `context` dict of the source, plus (as pure instrumentation) the final
parameter dict of each dispatched action and the Retrying-Invoker
invocations performed so far. -/
structure LoopState where
  results : List Dict
  ctx : Dict
  paramsAfter : List Dict
  calls : List (String × Dict)
  deriving Repr

/-- The context dict as initialized at line 503. -/
def initCtx : Dict := [("search_result", .null), ("album_tracks", .null)]

/-- The loop state before the first iteration. -/
def initLoopState : LoopState := ⟨[], initCtx, [], []⟩

/-- Result of one loop iteration: the critical-failure early return
(carrying the state at that point, as instrumentation) or the state for the
next iteration. -/
inductive StepRes where
  | early (resp : Dict) (st : LoopState)
  | cont (st : LoopState)
  deriving Repr

/-- One iteration of the `for action in actions` loop (lines 505-525):
dispatch, append the outcome, return early on an erroring search, and merge
a successful search or get_info result into the context. -/
def stepAction (σ : SessionFn) (a : SAction) (st : LoopState) : Except PyErr StepRes :=
  let h := execute_single_action σ a.tool_name a.params st.ctx
  match h.res with
  | .error e => .error e
  | .ok result =>
    let stBase : LoopState :=
      ⟨st.results ++ [result], h.ctx, st.paramsAfter ++ [h.params], st.calls ++ h.calls⟩
    if hasKey result "error" && a.tool_name == "SpotifySearch" then
      .ok (.early result stBase)
    else
      let ctx' :=
        if !(hasKey result "error") then
          if isStrEq (dget result "action") "search" then
            dset h.ctx "search_result" ((dget result "result").getD .null)
          else if isStrEq (dget result "action") "get_info" then
            dset h.ctx "album_info" ((dget result "result").getD .null)
          else h.ctx
        else h.ctx
      .ok (.cont { stBase with ctx := ctx' })

/-- Result of the whole loop: early return with response, or completion. -/
inductive LoopRes where
  | early (resp : Dict) (st : LoopState)
  | done (st : LoopState)
  deriving Repr

/-- The executor loop over the action list. -/
def runSteps (σ : SessionFn) : List SAction → LoopState → Except PyErr LoopRes
  | [], st => .ok (.done st)
  | a :: rest, st =>
    match stepAction σ a st with
    | .error e => .error e
    | .ok (.early r st') => .ok (.early r st')
    | .ok (.cont st') => runSteps σ rest st'

/-- The `try` body of `execute_spotify_actions` (lines 501-527): run the
loop and, unless it returned early, format the accumulated results. -/
def executeCore (σ : SessionFn) (actions : List SAction) : Except PyErr Dict :=
  match runSteps σ actions initLoopState with
  | .error e => .error e
  | .ok (.early r _) => .ok r
  | .ok (.done st) => format_final_response st.results

/-- `execute_spotify_actions` (lines 479-530): the `try` body with the
top-level `except Exception` converting any uncaught exception into an
`error` response. -/
def execute_spotify_actions (σ : SessionFn) (actions : List SAction) : Dict :=
  match executeCore σ actions with
  | .ok r => r
  | .error e => mkErr (pyErrStr e)

/-! ## Concrete fixtures (used by witnesses and counterexamples) -/

/-- A remote search payload holding one track. -/
def trackPayload : JVal :=
  .obj [("tracks", .arr [.obj [("name", .str "Song A"), ("id", .str "t1"),
                              ("artist", .str "A")]])]

/-- A remote get-info payload holding one (empty) track entry. -/
def infoPayload : JVal := .obj [("tracks", .arr [.obj []])]

/-- A session answering searches with `trackPayload`, get-info with
`infoPayload`, and every other tool with an empty non-error result. -/
def okSession : SessionFn := fun name _ =>
  if name == "SpotifySearch" then .ok (some ⟨false, [some (.json trackPayload)]⟩)
  else if name == "SpotifyGetInfo" then .ok (some ⟨false, [some (.json infoPayload)]⟩)
  else .ok (some ⟨false, []⟩)

/-- A session whose every call reports a remote error. -/
def errSession : SessionFn := fun _ _ => .ok (some ⟨true, []⟩)

/-- A session whose every call succeeds with empty content. -/
def emptySession : SessionFn := fun _ _ => .ok (some ⟨false, []⟩)

/-- A session whose every call raises. -/
def boomSession : SessionFn := fun _ _ => .error (.other "boom")

/-- A search action for one track. -/
def searchA : SAction := ⟨"SpotifySearch", [("query", .str "Song A"), ("qtype", .str "track")]⟩

/-- A get-info action with no parameters (so `item_uri` must come from the
context). -/
def getInfoA : SAction := ⟨"SpotifyGetInfo", []⟩

/-- A pause action. -/
def pauseA : SAction := ⟨"SpotifyPlayback", [("action", .str "pause")]⟩

/-- The per-action final parameter dicts of a run (instrumentation
accessor over `runSteps`). -/
def runParamsAfter (σ : SessionFn) (actions : List SAction) : List Dict :=
  match runSteps σ actions initLoopState with
  | .ok (.done st) => st.paramsAfter
  | .ok (.early _ st) => st.paramsAfter
  | .error _ => []

/-! ## Helper lemmas -/

theorem find?_map_set (d : Dict) (k : String) (v : JVal) :
    (d.map (fun p => if p.1 == k then (p.1, v) else p)).find? (fun p => p.1 == k) =
      (d.find? (fun p => p.1 == k)).map (fun p => (p.1, v)) := by
  induction d with
  | nil => rfl
  | cons p d ih =>
    by_cases hp : p.1 = k
    · simp [List.find?_cons, hp]
    · simp [List.find?_cons, hp]
      simpa using ih

theorem dget_dset (d : Dict) (k : String) (v : JVal) : dget (dset d k v) k = some v := by
  unfold dget dset
  split
  · next h =>
    rw [find?_map_set]
    obtain ⟨p, hp⟩ := Option.isSome_iff_exists.mp h
    rw [hp]
    simp
  · next h =>
    rw [List.find?_append, Option.not_isSome_iff_eq_none.mp h]
    simp [List.find?]

theorem isStrEq_true_iff (o : Option JVal) (s : String) :
    isStrEq o s = true ↔ o = some (.str s) := by
  cases o with
  | none => simp [isStrEq]
  | some v =>
    cases v <;> simp [isStrEq, isStrEqV]

theorem retryLoop_const_ok (a : A) (maxR : Nat) (d : ℚ) (retries ncalls : Nat)
    (sleeps : List ℚ) (h : retries < maxR) :
    retryLoop (fun _ => .ok a) maxR d retries ncalls sleeps =
      ⟨.ok (some a), ncalls + 1, sleeps⟩ := by
  unfold retryLoop
  simp [h]

theorem retryLoop_const_error (A : Type) (e : PyErr) (maxR : Nat) (d : ℚ) :
    ∀ fuel retries ncalls sleeps, maxR - retries = fuel → retries < maxR →
      (retryLoop (fun _ => (.error e : Except PyErr A)) maxR d retries ncalls sleeps).res =
        .error e := by
  intro fuel
  induction fuel with
  | zero => intro r n s hf h; omega
  | succ f ih =>
    intro r n s hf h
    rw [retryLoop]
    simp only [h, if_true]
    by_cases h2 : r + 1 ≥ maxR
    · simp [h2]
    · simp only [h2, if_false]
      exact ih (r + 1) (n + 1) _ (by omega) (by omega)

theorem handle_search_state (σ : SessionFn) (p c : Dict) :
    (handle_search_action σ p c).params = p ∧ (handle_search_action σ p c).ctx = c ∧
    (handle_search_action σ p c).calls = [("SpotifySearch", p)] := by
  unfold handle_search_action
  cases σ "SpotifySearch" p <;> simp

theorem handle_playlist_state (σ : SessionFn) (p c : Dict) :
    (handle_playlist_action σ p c).params = p ∧ (handle_playlist_action σ p c).ctx = c := by
  exact ⟨rfl, rfl⟩

theorem getInfoFill_frame (p : Dict) (sr : Option JVal) (p' : Dict)
    (h : getInfoFill p sr = .ok p') :
    p' = p ∨ ∃ v, p' = dset p "item_uri" v := by
  unfold getInfoFill at h
  split at h
  · split at h
    · injection h with h2
      exact .inr ⟨_, h2.symm⟩
    · exact Except.noConfusion h
  · injection h with h2
    exact .inl h2.symm

theorem playbackFill_frame (p : Dict) (sr : Option JVal) (p' : Dict)
    (h : playbackFill p sr = .ok p') :
    p' = p ∨ ∃ v, p' = dset p "spotify_uri" v := by
  unfold playbackFill at h
  split at h
  · split at h
    · split at h
      · exact Except.noConfusion h
      · split at h
        · exact Except.noConfusion h
        · split at h
          · injection h with h2
            exact .inr ⟨_, h2.symm⟩
          · injection h with h2
            exact .inr ⟨_, h2.symm⟩
    · injection h with h2
      exact .inl h2.symm
  · injection h with h2
    exact .inl h2.symm

theorem queueFill_frame (p : Dict) (sr : Option JVal) (p' : Dict)
    (h : queueFill p sr = .ok p') :
    p' = p ∨ ∃ v, p' = dset p "track_id" v := by
  unfold queueFill at h
  split at h
  · split at h
    · injection h with h2
      exact .inr ⟨_, h2.symm⟩
    · exact Except.noConfusion h
  · injection h with h2
    exact .inl h2.symm

theorem handle_playback_state (σ : SessionFn) (p c : Dict) :
    (handle_playback_action σ p c).ctx = c ∧
    ((handle_playback_action σ p c).params = p ∨
      ∃ v, (handle_playback_action σ p c).params = dset p "spotify_uri" v) := by
  unfold handle_playback_action
  dsimp only
  split
  · exact ⟨rfl, .inl rfl⟩
  · next p' heq => exact ⟨rfl, playbackFill_frame _ _ _ heq⟩

theorem handle_queue_state (σ : SessionFn) (p c : Dict) :
    (handle_queue_action σ p c).ctx = c ∧
    ((handle_queue_action σ p c).params = p ∨
      ∃ v, (handle_queue_action σ p c).params = dset p "track_id" v) := by
  unfold handle_queue_action
  dsimp only
  split
  · exact ⟨rfl, .inl rfl⟩
  · split
    · exact ⟨rfl, .inl rfl⟩
    · next p' heq => exact ⟨rfl, queueFill_frame _ _ _ heq⟩

theorem handle_get_info_params (σ : SessionFn) (p c : Dict) :
    (handle_get_info_action σ p c).params = p ∨
      ∃ v, (handle_get_info_action σ p c).params = dset p "item_uri" v := by
  unfold handle_get_info_action
  dsimp only
  split
  · exact .inl rfl
  · next p' heq =>
    have frame := getInfoFill_frame _ _ _ heq
    repeat' split
    all_goals simpa using frame

theorem handle_get_info_ctx (σ : SessionFn) (p c : Dict) :
    (handle_get_info_action σ p c).ctx = c ∨
    ∃ o v, (handle_get_info_action σ p c).res = .ok o ∧ hasKey o "error" = false ∧
      dget o "action" = some (.str "get_info") ∧
      (handle_get_info_action σ p c).ctx = dset c "album_tracks" v := by
  unfold handle_get_info_action
  dsimp only
  repeat' split
  all_goals first
    | exact .inl rfl
    | exact .inr ⟨_, _, rfl, rfl, rfl, rfl⟩

theorem searchParse_shape (params : Dict) (r : RemoteResult) (d : Dict)
    (h : searchParse params r = .ok d) :
    hasKey d "error" = true ∨ dget d "action" = some (.str "search") := by
  unfold searchParse at h
  repeat' first | split at h | dsimp only at h
  all_goals
    first
      | exact Except.noConfusion h
      | (injection h with h2; subst h2; first | exact .inl rfl | exact .inr rfl)

theorem handle_search_res (σ : SessionFn) (p c : Dict) (o : Dict)
    (h : (handle_search_action σ p c).res = .ok o) :
    hasKey o "error" = true ∨ dget o "action" = some (.str "search") := by
  unfold handle_search_action at h
  split at h
  · exact Except.noConfusion h
  · dsimp only at h
    repeat' split at h
    all_goals
      first
        | exact Except.noConfusion h
        | (injection h with h2; subst h2; exact .inl rfl)
        | (next hp => injection h with h2; subst h2; exact searchParse_shape _ _ _ hp)

theorem playbackAfterFill_res (σ : SessionFn) (p' : Dict) (sr : Option JVal) (o : Dict)
    (h : (playbackAfterFill σ p' sr).1 = .ok o) :
    hasKey o "error" = true ∨
    (isStrEq (dget o "action") "search" = false ∧
     isStrEq (dget o "action") "get_info" = false) := by
  unfold playbackAfterFill at h
  repeat' first | split at h | dsimp only at h
  all_goals
    first
      | exact Except.noConfusion h
      | (injection h with h2; subst h2;
         first | exact .inl rfl | exact .inr ⟨rfl, rfl⟩)

theorem queueAfterFill_res (σ : SessionFn) (p' : Dict) (sr : Option JVal) (o : Dict)
    (h : (queueAfterFill σ p' sr).1 = .ok o) :
    hasKey o "error" = true ∨
    (isStrEq (dget o "action") "search" = false ∧
     isStrEq (dget o "action") "get_info" = false) := by
  unfold queueAfterFill at h
  repeat' first | split at h | dsimp only at h
  all_goals
    first
      | exact Except.noConfusion h
      | (injection h with h2; subst h2;
         first | exact .inl rfl | exact .inr ⟨rfl, rfl⟩)

set_option maxHeartbeats 2000000 in
theorem playlistCore_res (σ : SessionFn) (p : Dict) (o : Dict)
    (h : (playlistCore σ p).1 = .ok o) :
    hasKey o "error" = true ∨
    (isStrEq (dget o "action") "search" = false ∧
     isStrEq (dget o "action") "get_info" = false) := by
  unfold playlistCore at h
  repeat' first | split at h | dsimp only at h
  all_goals
    first
      | exact Except.noConfusion h
      | (injection h with h2; subst h2;
         first | exact .inl rfl | exact .inr ⟨rfl, rfl⟩)

theorem runSteps_append (σ : SessionFn) (pre : List SAction) :
    ∀ rest st₀ st, runSteps σ pre st₀ = .ok (.done st) →
      runSteps σ (pre ++ rest) st₀ = runSteps σ rest st := by
  induction pre with
  | nil =>
    intro rest st₀ st h
    unfold runSteps at h
    injection h with h2
    injection h2 with h3
    rw [List.nil_append, h3]
  | cons a pre ih =>
    intro rest st₀ st h
    unfold runSteps at h
    rw [List.cons_append]
    conv_lhs => unfold runSteps
    cases hs : stepAction σ a st₀ with
    | error e => rw [hs] at h; simp at h
    | ok sres =>
      cases sres with
      | early r st' => rw [hs] at h; simp at h
      | cont st' =>
        rw [hs] at h
        dsimp only at h ⊢
        exact ih rest st' st h

theorem stepAction_search_err (σ : SessionFn) (a : SAction) (st : LoopState) (o : Dict)
    (hname : a.tool_name = "SpotifySearch")
    (ho : (handle_search_action σ a.params st.ctx).res = .ok o)
    (herr : hasKey o "error" = true) :
    stepAction σ a st =
      .ok (.early o ⟨st.results ++ [o], st.ctx, st.paramsAfter ++ [a.params],
                     st.calls ++ [("SpotifySearch", a.params)]⟩) := by
  obtain ⟨hp, hc, hcalls⟩ := handle_search_state σ a.params st.ctx
  unfold stepAction execute_single_action
  rw [hname]
  simp only [beq_self_eq_true, if_true, reduceIte]
  rw [ho]
  dsimp only
  rw [herr, hp, hc, hcalls]
  rfl

/-! ## Claim theorems -/

/-- C1: whenever the executor reaches a Search step (tool name
`"SpotifySearch"`) whose StepOutcome is an error record, it returns that
error record itself as the overall FinalResponse: the loop stops early with
exactly one more outcome appended (no later step is dispatched) and the
Response Formatter is not invoked — the returned value is the step's error
record verbatim. -/
theorem search_error_short_circuits (σ : SessionFn) (pre post : List SAction)
    (a : SAction) (st : LoopState) (o : Dict)
    (hpre : runSteps σ pre initLoopState = .ok (.done st))
    (hname : a.tool_name = "SpotifySearch")
    (ho : (handle_search_action σ a.params st.ctx).res = .ok o)
    (herr : hasKey o "error" = true) :
    execute_spotify_actions σ (pre ++ a :: post) = o ∧
    runSteps σ (pre ++ a :: post) initLoopState =
      .ok (.early o ⟨st.results ++ [o], st.ctx, st.paramsAfter ++ [a.params],
                     st.calls ++ [("SpotifySearch", a.params)]⟩) := by
  have hstep := stepAction_search_err σ a st o hname ho herr
  have hrun : runSteps σ (pre ++ a :: post) initLoopState =
      .ok (.early o ⟨st.results ++ [o], st.ctx, st.paramsAfter ++ [a.params],
                     st.calls ++ [("SpotifySearch", a.params)]⟩) := by
    rw [runSteps_append σ pre (a :: post) initLoopState st hpre]
    conv_lhs => unfold runSteps
    rw [hstep]
  refine ⟨?_, hrun⟩
  unfold execute_spotify_actions executeCore
  rw [hrun]

/-- C1 witness: a two-action sequence whose first action is a Search
answered with a remote error: the executor dispatches once and returns the
search error verbatim. -/
theorem search_error_short_circuits_witness :
    execute_spotify_actions errSession [searchA, pauseA] =
      [("error", .str "No search results found")] ∧
    runSteps errSession [searchA, pauseA] initLoopState =
      .ok (.early [("error", .str "No search results found")]
             ⟨[[("error", .str "No search results found")]], initCtx,
              [searchA.params], [("SpotifySearch", searchA.params)]⟩) := by
  have h := search_error_short_circuits errSession [] [pauseA] searchA initLoopState
      [("error", .str "No search results found")] rfl rfl rfl rfl
  exact h

/-- C3: the Retrying Invoker with `maxAttempts = 3` against a tool that
fails twice then succeeds performs exactly 3 calls and returns the
successful result; with `maxAttempts = 2` against a tool that always fails
it performs exactly 2 calls and propagates the last failure; between
consecutive attempts it sleeps `baseDelay * 2 ^ (attempt - 1)` seconds. -/
theorem call_tool_with_retry_spec {A B : Type}
    (tool : Nat → Except PyErr A) (tool2 : Nat → Except PyErr B)
    (a : A) (e0 e1 f0 f1 : PyErr) (d : ℚ)
    (h0 : tool 0 = .error e0) (h1 : tool 1 = .error e1) (h2 : tool 2 = .ok a)
    (g0 : tool2 0 = .error f0) (g1 : tool2 1 = .error f1) :
    call_tool_with_retry tool 3 d =
      ⟨.ok (some a), 3, [d * 2 ^ (1 - 1), d * 2 ^ (2 - 1)]⟩ ∧
    call_tool_with_retry tool2 2 d = ⟨.error f1, 2, [d * 2 ^ (1 - 1)]⟩ := by
  constructor
  · simp [call_tool_with_retry, retryLoop, h0, h1, h2]
  · simp [call_tool_with_retry, retryLoop, g0, g1]

/-- C3 witness: concrete tools — one failing on the first two attempts
only, one always failing — run at base delay 1. -/
theorem call_tool_with_retry_spec_witness :
    call_tool_with_retry (fun n => if n < 2 then .error (.other "boom") else .ok (42 : Nat)) 3 1 =
      ⟨.ok (some 42), 3, [1 * 2 ^ (1 - 1), 1 * 2 ^ (2 - 1)]⟩ ∧
    call_tool_with_retry (fun _ => (.error (.other "boom") : Except PyErr Nat)) 2 1 =
      ⟨.error (.other "boom"), 2, [1 * 2 ^ (1 - 1)]⟩ :=
  call_tool_with_retry_spec
    (fun n => if n < 2 then .error (.other "boom") else .ok (42 : Nat))
    (fun _ => (.error (.other "boom") : Except PyErr Nat))
    42 (.other "boom") (.other "boom") (.other "boom") (.other "boom") 1
    rfl rfl rfl rfl rfl

/-- C10: for the empty action sequence the executor returns an error
FinalResponse: the Response Formatter's access to the last element of the
empty results list raises `IndexError`, and the top-level handler converts
that exception into an `error` record — never a success-shaped response. -/
theorem execute_empty_is_error (σ : SessionFn) :
    executeCore σ [] = .error .indexErr ∧
    execute_spotify_actions σ [] = [("error", .str "list index out of range")] :=
  ⟨rfl, rfl⟩

/-- C6: every exception raised inside the execution loop is caught at the
top level and converted into an `{error: str(e)}` FinalResponse; a run
without an exception returns the loop's value — the executor never
propagates a raw exception (its return type carries none). -/
theorem executor_catches_exceptions (σ : SessionFn) (actions : List SAction) :
    (∀ e, executeCore σ actions = .error e →
       execute_spotify_actions σ actions = [("error", .str (pyErrStr e))]) ∧
    (∀ r, executeCore σ actions = .ok r → execute_spotify_actions σ actions = r) := by
  constructor
  · intro e h
    unfold execute_spotify_actions
    rw [h]
    rfl
  · intro r h
    unfold execute_spotify_actions
    rw [h]

/-- C6 witness: a session whose tool call raises propagates its exception
out of the playback handler, and the executor converts it to an error
record. -/
theorem executor_catches_exceptions_witness :
    executeCore boomSession [pauseA] = .error (.other "boom") ∧
    execute_spotify_actions boomSession [pauseA] = [("error", .str "boom")] :=
  ⟨rfl, (executor_catches_exceptions boomSession [pauseA]).1 (.other "boom") rfl⟩

/-- C2: the Response Formatter on a non-empty outcome list returns the last
error outcome verbatim when every outcome is an error; on mixed outcomes an
object whose message is the last success's message concatenated with
"\nSome actions failed" and whose details hold the last success and all
error outcomes; and when every outcome is a success, an object whose
message is the last outcome's message (defaulting to "Command executed
successfully") and whose details are the last outcome. -/
theorem format_final_response_spec :
    (∀ (results : List Dict) (hne : results ≠ []),
       (∀ r ∈ results, hasKey r "error" = true) →
       format_final_response results = .ok (results.getLast hne)) ∧
    (∀ (results : List Dict) (lastS : Dict) (m : String),
       (∃ r ∈ results, hasKey r "error" = true) →
       (results.filter (fun r => !(hasKey r "error"))).getLast? = some lastS →
       dget lastS "message" = some (.str m) →
       format_final_response results =
         .ok [("message", .str (m ++ "\nSome actions failed")),
              ("details",
               .obj [("success", .obj lastS),
                     ("errors",
                      .arr ((results.filter (fun r => hasKey r "error")).map .obj))])]) ∧
    (∀ (results : List Dict) (hne : results ≠ []),
       (∀ r ∈ results, hasKey r "error" = false) →
       format_final_response results =
         .ok [("message",
               (dget (results.getLast hne) "message").getD
                 (.str "Command executed successfully")),
              ("details", .obj (results.getLast hne))]) := by
  refine ⟨?_, ?_, ?_⟩
  · intro results hne hall
    unfold format_final_response
    have hfe : results.filter (fun r => hasKey r "error") = results :=
      List.filter_eq_self.mpr hall
    rw [hfe]
    simp [List.isEmpty_eq_false.mpr hne, List.getLast?_eq_getLast results hne]
  · intro results lastS m hex hlast hmsg
    unfold format_final_response
    obtain ⟨re, hre, hrek⟩ := hex
    have herrne : results.filter (fun r => hasKey r "error") ≠ [] := by
      intro hnil
      have : re ∈ results.filter (fun r => hasKey r "error") :=
        List.mem_filter.mpr ⟨hre, hrek⟩
      rw [hnil] at this
      exact List.not_mem_nil re this
    have hS : lastS ∈ results.filter (fun r => !(hasKey r "error")) :=
      List.mem_of_mem_getLast? (by rw [hlast]; rfl)
    obtain ⟨hSmem, hSerr⟩ := List.mem_filter.mp hS
    have hlen : (results.filter (fun r => hasKey r "error")).length ≠ results.length := by
      intro hl
      have := List.filter_length_eq_length.mp hl lastS hSmem
      rw [this] at hSerr
      exact Bool.noConfusion hSerr
    rw [if_pos (by simpa [List.isEmpty_eq_false] using herrne)]
    rw [if_neg (by simpa using hlen)]
    dsimp only
    rw [hlast]
    dsimp only
    rw [hmsg]
    rfl
  · intro results hne hall
    unfold format_final_response
    have hfe : results.filter (fun r => hasKey r "error") = [] :=
      List.filter_eq_nil_iff.mpr (by intro a ha; rw [hall a ha]; exact Bool.noConfusion)
    rw [hfe]
    simp [List.getLast?_eq_getLast results hne]

/-- C2 witness: the three branches evaluated on concrete outcome lists. -/
theorem format_final_response_spec_witness :
    format_final_response [[("error", .str "a")], [("error", .str "b")]] =
      .ok [("error", .str "b")] ∧
    format_final_response
        [[("action", .str "playback"), ("message", .str "Playback paused")],
         [("error", .str "b")]] =
      .ok [("message", .str "Playback paused\nSome actions failed"),
           ("details",
            .obj [("success",
                   .obj [("action", .str "playback"), ("message", .str "Playback paused")]),
                  ("errors", .arr [.obj [("error", .str "b")]])])] ∧
    format_final_response [[("action", .str "playback"), ("message", .str "Playback paused")]] =
      .ok [("message", .str "Playback paused"),
           ("details", .obj [("action", .str "playback"), ("message", .str "Playback paused")])] := by
  refine ⟨?_, ?_, ?_⟩
  · exact format_final_response_spec.1 [[("error", .str "a")], [("error", .str "b")]]
      (by simp) (by decide)
  · exact format_final_response_spec.2.1
      [[("action", .str "playback"), ("message", .str "Playback paused")],
       [("error", .str "b")]]
      [("action", .str "playback"), ("message", .str "Playback paused")]
      "Playback paused" ⟨[("error", .str "b")], by simp, rfl⟩ rfl rfl
  · exact format_final_response_spec.2.2
      [[("action", .str "playback"), ("message", .str "Playback paused")]]
      (by simp) (by decide)

/-- C4: a successful Search on a track payload with id "track123" yields a
SearchResult with uri "spotify:track:track123" whether the payload's artist
field is the scalar "Artist X" or the list ["Artist X"] (both yield artist
"Artist X"), and a chosen item with no artist field yields artist
"Unknown Artist". -/
theorem search_track123_normalization :
    (∀ (σ : SessionFn) (params ctx : Dict) (content : List ContentMsg) (nm : JVal)
       (ts : List JVal),
       σ "SpotifySearch" params = .ok (some ⟨false, content⟩) →
       firstText content = some (.json (.obj [("tracks", .arr
         (.obj [("name", nm), ("id", .str "track123"), ("artist", .str "Artist X")] :: ts))])) →
       (handle_search_action σ params ctx).res =
         .ok [("action", .str "search"),
              ("result", .obj [("name", nm), ("uri", .str "spotify:track:track123"),
                               ("id", .str "track123"), ("artist", .str "Artist X"),
                               ("type", .str "track")])]) ∧
    (∀ (σ : SessionFn) (params ctx : Dict) (content : List ContentMsg) (nm : JVal)
       (ts : List JVal),
       σ "SpotifySearch" params = .ok (some ⟨false, content⟩) →
       firstText content = some (.json (.obj [("tracks", .arr
         (.obj [("name", nm), ("id", .str "track123"), ("artists", .arr [.str "Artist X"])] :: ts))])) →
       (handle_search_action σ params ctx).res =
         .ok [("action", .str "search"),
              ("result", .obj [("name", nm), ("uri", .str "spotify:track:track123"),
                               ("id", .str "track123"), ("artist", .str "Artist X"),
                               ("type", .str "track")])]) ∧
    (∀ (σ : SessionFn) (params ctx : Dict) (content : List ContentMsg) (nm : JVal)
       (ts : List JVal),
       σ "SpotifySearch" params = .ok (some ⟨false, content⟩) →
       firstText content = some (.json (.obj [("tracks", .arr
         (.obj [("name", nm), ("id", .str "track123")] :: ts))])) →
       (handle_search_action σ params ctx).res =
         .ok [("action", .str "search"),
              ("result", .obj [("name", nm), ("uri", .str "spotify:track:track123"),
                               ("id", .str "track123"), ("artist", .str "Unknown Artist"),
                               ("type", .str "track")])]) := by
  refine ⟨?_, ?_, ?_⟩ <;>
    · intro σ params ctx content nm ts hσ hct
      unfold handle_search_action searchParse
      rw [hσ]
      dsimp only
      rw [hct]
      cases hq : isStrEq (dget params "qtype") "album" <;> rfl

/-- C4 witness: the three payload variants evaluated against concrete
sessions. -/
theorem search_track123_normalization_witness :
    (handle_search_action
        (fun _ _ => .ok (some ⟨false, [some (.json (.obj [("tracks", .arr
          [.obj [("name", .str "N"), ("id", .str "track123"), ("artist", .str "Artist X")]])]))]⟩))
        [] initCtx).res =
      .ok [("action", .str "search"),
           ("result", .obj [("name", .str "N"), ("uri", .str "spotify:track:track123"),
                            ("id", .str "track123"), ("artist", .str "Artist X"),
                            ("type", .str "track")])] ∧
    (handle_search_action
        (fun _ _ => .ok (some ⟨false, [some (.json (.obj [("tracks", .arr
          [.obj [("name", .str "N"), ("id", .str "track123"), ("artists", .arr [.str "Artist X"])]])]))]⟩))
        [] initCtx).res =
      .ok [("action", .str "search"),
           ("result", .obj [("name", .str "N"), ("uri", .str "spotify:track:track123"),
                            ("id", .str "track123"), ("artist", .str "Artist X"),
                            ("type", .str "track")])] ∧
    (handle_search_action
        (fun _ _ => .ok (some ⟨false, [some (.json (.obj [("tracks", .arr
          [.obj [("name", .str "N"), ("id", .str "track123")]])]))]⟩))
        [] initCtx).res =
      .ok [("action", .str "search"),
           ("result", .obj [("name", .str "N"), ("uri", .str "spotify:track:track123"),
                            ("id", .str "track123"), ("artist", .str "Unknown Artist"),
                            ("type", .str "track")])] :=
  ⟨search_track123_normalization.1 _ [] initCtx _ (.str "N") [] rfl rfl,
   search_track123_normalization.2.1 _ [] initCtx _ (.str "N") [] rfl rfl,
   search_track123_normalization.2.2 _ [] initCtx _ (.str "N") [] rfl rfl⟩

/-- C7 counterexample: a Search whose remote call succeeds (`isError`
false) with empty content does NOT return "No search results found" — the
default empty-object payload reaches the no-albums/no-tracks branch, which
returns "No results found for query: <query>" instead. -/
theorem search_empty_content_counterexample :
    (handle_search_action emptySession [("query", .str "test")] initCtx).res =
      .ok [("error", .str "No results found for query: test")] ∧
    (handle_search_action emptySession [("query", .str "test")] initCtx).res ≠
      .ok [("error", .str "No search results found")] := by
  refine ⟨rfl, ?_⟩
  intro h
  have h0 : (handle_search_action emptySession [("query", .str "test")] initCtx).res =
      .ok [("error", .str "No results found for query: test")] := rfl
  rw [h0] at h
  injection h with h2
  injection h2 with h3 h4
  injection h3 with h5 h6
  injection h6 with h7
  exact absurd h7 (by decide)

/-- C7 amended: for every Search step whose remote call returns a non-`None`
non-error RemoteResult whose content bears no `text` element, the handler
decodes the default empty-object payload and returns the error
"No results found for query: <query>" (the error "No search results found"
arises only when the result is `None` or remote-flagged as an error). -/
theorem search_empty_content_amended (σ : SessionFn) (params ctx : Dict)
    (r : RemoteResult)
    (hσ : σ "SpotifySearch" params = .ok (some r))
    (herr : r.isError = false)
    (hct : ∀ c ∈ r.content, c = none) :
    (handle_search_action σ params ctx).res =
      .ok [("error", .str ("No results found for query: " ++
                           pyStrOpt (dget params "query")))] := by
  have hft : firstText r.content = none :=
    List.findSome?_eq_none_iff.mpr (by intro x hx; simpa using hct x hx)
  unfold handle_search_action searchParse
  rw [hσ]
  dsimp only
  rw [herr, hft]
  cases hq : isStrEq (dget params "qtype") "album" <;> rfl

/-- C7 amended witness: a non-error result with empty content and query
"q". -/
theorem search_empty_content_amended_witness :
    (handle_search_action emptySession [("query", .str "q")] initCtx).res =
      .ok [("error", .str "No results found for query: q")] :=
  search_empty_content_amended emptySession [("query", .str "q")] initCtx
    ⟨false, []⟩ rfl rfl (by intro c hc; cases hc)

/-- C9: a Queue step with no truthy `track_id` parameter and no truthy
`search_result` in context returns the validation error
"No track ID available for queue", and a Playlist `get_tracks` step with no
truthy `playlist_id` returns "playlist_id is required for get_tracks
action" — in both cases with an empty invocation list, i.e. without
invoking the remote session at all (the output is the same for every
session). -/
theorem validation_errors_no_remote_call :
    (∀ (σ : SessionFn) (params ctx : Dict),
       optTruthy (dget params "track_id") = false →
       optTruthy (dget ctx "search_result") = false →
       handle_queue_action σ params ctx =
         ⟨.ok [("error", .str "No track ID available for queue")], params, ctx, []⟩) ∧
    (∀ (σ : SessionFn) (params ctx : Dict),
       dget params "action" = some (.str "get_tracks") →
       optTruthy (dget params "playlist_id") = false →
       handle_playlist_action σ params ctx =
         ⟨.ok [("error", .str "playlist_id is required for get_tracks action")],
          params, ctx, []⟩) := by
  constructor
  · intro σ params ctx h1 h2
    unfold handle_queue_action
    dsimp only
    rw [h1, h2]
    rfl
  · intro σ params ctx ha hp
    unfold handle_playlist_action playlistCore
    dsimp only
    rw [ha, hp]
    rfl

/-- C9 witness: a parameterless queue action and a `get_tracks` playlist
action with no `playlist_id`, run against a session that would raise if
called. -/
theorem validation_errors_no_remote_call_witness :
    handle_queue_action boomSession [] initCtx =
      ⟨.ok [("error", .str "No track ID available for queue")], [], initCtx, []⟩ ∧
    handle_playlist_action boomSession [("action", .str "get_tracks")] initCtx =
      ⟨.ok [("error", .str "playlist_id is required for get_tracks action")],
       [("action", .str "get_tracks")], initCtx, []⟩ :=
  ⟨(validation_errors_no_remote_call.1 boomSession [] initCtx rfl rfl),
   (validation_errors_no_remote_call.2 boomSession [("action", .str "get_tracks")]
      initCtx rfl rfl)⟩

theorem handle_playback_res (σ : SessionFn) (p c : Dict) (o : Dict)
    (h : (handle_playback_action σ p c).res = .ok o) :
    hasKey o "error" = true ∨
    (isStrEq (dget o "action") "search" = false ∧
     isStrEq (dget o "action") "get_info" = false) := by
  unfold handle_playback_action at h
  dsimp only at h
  split at h
  · exact Except.noConfusion h
  · exact playbackAfterFill_res σ _ _ o h

theorem handle_queue_res (σ : SessionFn) (p c : Dict) (o : Dict)
    (h : (handle_queue_action σ p c).res = .ok o) :
    hasKey o "error" = true ∨
    (isStrEq (dget o "action") "search" = false ∧
     isStrEq (dget o "action") "get_info" = false) := by
  unfold handle_queue_action at h
  dsimp only at h
  split at h
  · injection h with h2
    subst h2
    exact .inl rfl
  · split at h
    · exact Except.noConfusion h
    · exact queueAfterFill_res σ _ _ o h

theorem handle_playlist_res (σ : SessionFn) (p c : Dict) (o : Dict)
    (h : (handle_playlist_action σ p c).res = .ok o) :
    hasKey o "error" = true ∨
    (isStrEq (dget o "action") "search" = false ∧
     isStrEq (dget o "action") "get_info" = false) := by
  unfold handle_playlist_action at h
  dsimp only at h
  exact playlistCore_res σ p o h

theorem handle_get_info_err_ctx (σ : SessionFn) (p c : Dict) (o : Dict)
    (hres : (handle_get_info_action σ p c).res = .ok o)
    (herr : hasKey o "error" = true) :
    (handle_get_info_action σ p c).ctx = c := by
  rcases handle_get_info_ctx σ p c with hc | ⟨o', v, hres', hne, _, _⟩
  · exact hc
  · rw [hres'] at hres
    injection hres with h2
    subst h2
    rw [herr] at hne
    exact Bool.noConfusion hne

theorem execute_single_merge_safe (σ : SessionFn) (name : String) (p c : Dict) (o : Dict)
    (hname : name ≠ "SpotifySearch") (hname2 : name ≠ "SpotifyGetInfo")
    (hres : (execute_single_action σ name p c).res = .ok o) :
    (execute_single_action σ name p c).ctx = c ∧
    (hasKey o "error" = true ∨
     (isStrEq (dget o "action") "search" = false ∧
      isStrEq (dget o "action") "get_info" = false)) := by
  have hb1 : (name == "SpotifySearch") = false := by simpa using hname
  have hb2 : (name == "SpotifyGetInfo") = false := by simpa using hname2
  unfold execute_single_action at hres ⊢
  rw [hb1, hb2] at hres ⊢
  simp only [Bool.false_eq_true, if_false] at hres ⊢
  by_cases hb3 : (name == "SpotifyPlayback") = true
  · rw [hb3] at hres ⊢
    simp only [if_true] at hres ⊢
    exact ⟨(handle_playback_state σ p c).1, handle_playback_res σ p c o hres⟩
  · rw [Bool.eq_false_iff.mpr hb3] at hres ⊢
    simp only [Bool.false_eq_true, if_false] at hres ⊢
    by_cases hb4 : (name == "SpotifyQueue") = true
    · rw [hb4] at hres ⊢
      simp only [if_true] at hres ⊢
      exact ⟨(handle_queue_state σ p c).1, handle_queue_res σ p c o hres⟩
    · rw [Bool.eq_false_iff.mpr hb4] at hres ⊢
      simp only [Bool.false_eq_true, if_false] at hres ⊢
      by_cases hb5 : (name == "SpotifyPlaylist") = true
      · rw [hb5] at hres ⊢
        simp only [if_true] at hres ⊢
        exact ⟨(handle_playlist_state σ p c).2, handle_playlist_res σ p c o hres⟩
      · rw [Bool.eq_false_iff.mpr hb5] at hres ⊢
        simp only [Bool.false_eq_true, if_false] at hres ⊢
        refine ⟨?_, ?_⟩
        · first | rfl | trivial
        · have h2 : [("error", JVal.str ("Unsupported action: " ++ name))] = o := by
            injection hres
          subst h2
          exact .inl rfl

theorem execute_single_search_eq (σ : SessionFn) (p c : Dict) :
    execute_single_action σ "SpotifySearch" p c = handle_search_action σ p c := rfl

theorem execute_single_get_info_eq (σ : SessionFn) (p c : Dict) :
    execute_single_action σ "SpotifyGetInfo" p c = handle_get_info_action σ p c := rfl

theorem stepAction_cont_ctx (σ : SessionFn) (a : SAction) (st st' : LoopState)
    (hstep : stepAction σ a st = .ok (.cont st')) :
    ∃ o, (execute_single_action σ a.tool_name a.params st.ctx).res = .ok o ∧
      (hasKey o "error" && a.tool_name == "SpotifySearch") = false ∧
      st'.ctx =
        (if !(hasKey o "error") then
           if isStrEq (dget o "action") "search" then
             dset (execute_single_action σ a.tool_name a.params st.ctx).ctx
               "search_result" ((dget o "result").getD .null)
           else if isStrEq (dget o "action") "get_info" then
             dset (execute_single_action σ a.tool_name a.params st.ctx).ctx
               "album_info" ((dget o "result").getD .null)
           else (execute_single_action σ a.tool_name a.params st.ctx).ctx
         else (execute_single_action σ a.tool_name a.params st.ctx).ctx) := by
  unfold stepAction at hstep
  dsimp only at hstep
  cases hres : (execute_single_action σ a.tool_name a.params st.ctx).res with
  | error e => rw [hres] at hstep; exact Except.noConfusion hstep
  | ok o =>
    rw [hres] at hstep
    dsimp only at hstep
    by_cases hcrit : (hasKey o "error" && a.tool_name == "SpotifySearch") = true
    · rw [if_pos hcrit] at hstep
      exact StepRes.noConfusion (Except.ok.inj hstep)
    · rw [if_neg hcrit] at hstep
      have h2 := Except.ok.inj hstep
      have h3 := StepRes.cont.inj h2
      subst h3
      exact ⟨o, rfl, Bool.eq_false_iff.mpr hcrit, rfl⟩

theorem stepAction_early_ctx (σ : SessionFn) (a : SAction) (st : LoopState)
    (o : Dict) (st' : LoopState)
    (hstep : stepAction σ a st = .ok (.early o st')) :
    st'.ctx = st.ctx ∧ hasKey o "error" = true ∧ a.tool_name = "SpotifySearch" := by
  unfold stepAction at hstep
  dsimp only at hstep
  cases hres : (execute_single_action σ a.tool_name a.params st.ctx).res with
  | error e => rw [hres] at hstep; exact Except.noConfusion hstep
  | ok result =>
    rw [hres] at hstep
    dsimp only at hstep
    by_cases hcrit : (hasKey result "error" && a.tool_name == "SpotifySearch") = true
    · rw [if_pos hcrit] at hstep
      have h2 := Except.ok.inj hstep
      have ho : result = o := (StepRes.early.inj h2).1
      have hst : st' = _ := (StepRes.early.inj h2).2.symm
      obtain ⟨herr, hbeq⟩ := Bool.and_eq_true_iff.mp hcrit
      have hname : a.tool_name = "SpotifySearch" := by simpa using hbeq
      subst ho
      refine ⟨?_, herr, hname⟩
      rw [hst]
      dsimp only
      rw [hname]
      exact (handle_search_state σ a.params st.ctx).2.1
    · rw [if_neg hcrit] at hstep
      exact StepRes.noConfusion (Except.ok.inj hstep)

/-- C5: the ExecutionContext is mutated only by successful search and info
steps. An executed step whose StepOutcome is an error record leaves the
context unchanged (whether the loop continues or stops early), a successful
Search installs its outcome's `result` as the context's `search_result`
(overwriting — not accumulating with — whatever was there), and a
successful step of any kind other than Search and GetInfo leaves the
context unchanged. -/
theorem context_mutation_policy :
    (∀ (σ : SessionFn) (a : SAction) (st st' : LoopState) (o : Dict),
       stepAction σ a st = .ok (.cont st') →
       (execute_single_action σ a.tool_name a.params st.ctx).res = .ok o →
       hasKey o "error" = true → st'.ctx = st.ctx) ∧
    (∀ (σ : SessionFn) (a : SAction) (st : LoopState) (o : Dict) (st' : LoopState),
       stepAction σ a st = .ok (.early o st') → st'.ctx = st.ctx) ∧
    (∀ (σ : SessionFn) (a : SAction) (st st' : LoopState) (o : Dict),
       a.tool_name = "SpotifySearch" →
       stepAction σ a st = .ok (.cont st') →
       (execute_single_action σ a.tool_name a.params st.ctx).res = .ok o →
       st'.ctx = dset st.ctx "search_result" ((dget o "result").getD .null) ∧
       dget st'.ctx "search_result" = some ((dget o "result").getD .null)) ∧
    (∀ (σ : SessionFn) (a : SAction) (st st' : LoopState),
       a.tool_name ≠ "SpotifySearch" → a.tool_name ≠ "SpotifyGetInfo" →
       stepAction σ a st = .ok (.cont st') → st'.ctx = st.ctx) := by
  refine ⟨?_, ?_, ?_, ?_⟩
  · intro σ a st st' o hstep hres herr
    obtain ⟨o', hres', _, hctx⟩ := stepAction_cont_ctx σ a st st' hstep
    rw [hres] at hres'
    have ho : o = o' := Except.ok.inj hres'
    rw [← ho] at hctx
    rw [herr] at hctx
    simp only [Bool.not_true, Bool.false_eq_true, if_false] at hctx
    rw [hctx]
    by_cases hs : a.tool_name = "SpotifySearch"
    · rw [hs] at hres ⊢
      rw [execute_single_search_eq]
      exact (handle_search_state σ a.params st.ctx).2.1
    · by_cases hg : a.tool_name = "SpotifyGetInfo"
      · rw [hg] at hres ⊢
        rw [execute_single_get_info_eq] at hres ⊢
        exact handle_get_info_err_ctx σ a.params st.ctx o hres herr
      · exact (execute_single_merge_safe σ a.tool_name a.params st.ctx o hs hg hres).1
  · intro σ a st o st' hstep
    exact (stepAction_early_ctx σ a st o st' hstep).1
  · intro σ a st st' o hname hstep hres
    obtain ⟨o', hres', hcrit, hctx⟩ := stepAction_cont_ctx σ a st st' hstep
    rw [hres] at hres'
    have ho : o = o' := Except.ok.inj hres'
    rw [← ho] at hcrit hctx
    have hbeq : (a.tool_name == "SpotifySearch") = true := by simpa using hname
    rw [hbeq, Bool.and_true] at hcrit
    rw [hcrit] at hctx
    have hact : dget o "action" = some (.str "search") := by
      rcases handle_search_res σ a.params st.ctx o
          (by rw [hname] at hres; rw [← execute_single_search_eq σ a.params st.ctx]; exact hres) with
        h | h
      · rw [h] at hcrit; exact Bool.noConfusion hcrit
      · exact h
    rw [hact] at hctx
    have hsctx : (execute_single_action σ a.tool_name a.params st.ctx).ctx = st.ctx := by
      rw [hname, execute_single_search_eq]
      exact (handle_search_state σ a.params st.ctx).2.1
    rw [hsctx] at hctx
    simp only [Bool.not_false, if_true, isStrEq, isStrEqV, beq_self_eq_true] at hctx
    refine ⟨hctx, ?_⟩
    rw [hctx]
    exact dget_dset st.ctx "search_result" ((dget o "result").getD .null)
  · intro σ a st st' hn1 hn2 hstep
    obtain ⟨o, hres, _, hctx⟩ := stepAction_cont_ctx σ a st st' hstep
    obtain ⟨hec, hshape⟩ := execute_single_merge_safe σ a.tool_name a.params st.ctx o hn1 hn2 hres
    rw [hec] at hctx
    cases herr : hasKey o "error" with
    | true => rw [herr] at hctx; simpa using hctx
    | false =>
      rcases hshape with h | ⟨h1, h2⟩
      · rw [herr] at h; exact Bool.noConfusion h
      · rw [herr, h1, h2] at hctx
        simpa using hctx

/-- C5 witness: one successful Search step from the initial context
installs the search result (overwriting the `search_result` slot in
place). -/
theorem context_mutation_policy_witness :
    ({ results := [[("action", .str "search"),
                    ("result", .obj [("name", .str "Song A"),
                                     ("uri", .str "spotify:track:t1"),
                                     ("id", .str "t1"), ("artist", .str "A"),
                                     ("type", .str "track")])]],
       ctx := [("search_result", .obj [("name", .str "Song A"),
                                       ("uri", .str "spotify:track:t1"),
                                       ("id", .str "t1"), ("artist", .str "A"),
                                       ("type", .str "track")]),
               ("album_tracks", .null)],
       paramsAfter := [searchA.params],
       calls := [("SpotifySearch", searchA.params)] } : LoopState).ctx =
      dset initLoopState.ctx "search_result"
        ((dget [("action", .str "search"),
                ("result", .obj [("name", .str "Song A"),
                                 ("uri", .str "spotify:track:t1"),
                                 ("id", .str "t1"), ("artist", .str "A"),
                                 ("type", .str "track")])] "result").getD .null) ∧
    dget ({ results := [[("action", .str "search"),
                         ("result", .obj [("name", .str "Song A"),
                                          ("uri", .str "spotify:track:t1"),
                                          ("id", .str "t1"), ("artist", .str "A"),
                                          ("type", .str "track")])]],
            ctx := [("search_result", .obj [("name", .str "Song A"),
                                            ("uri", .str "spotify:track:t1"),
                                            ("id", .str "t1"), ("artist", .str "A"),
                                            ("type", .str "track")]),
                    ("album_tracks", .null)],
            paramsAfter := [searchA.params],
            calls := [("SpotifySearch", searchA.params)] } : LoopState).ctx
        "search_result" =
      some ((dget [("action", .str "search"),
                   ("result", .obj [("name", .str "Song A"),
                                    ("uri", .str "spotify:track:t1"),
                                    ("id", .str "t1"), ("artist", .str "A"),
                                    ("type", .str "track")])] "result").getD .null) :=
  context_mutation_policy.2.2.1 okSession searchA initLoopState _ _ rfl rfl rfl

/-- C8 counterexample: the parameters mapping handed to the executor is NOT
immutable. Running a Search followed by a parameterless GetInfo, the
GetInfo action's empty parameter dict has gained an `item_uri` entry filled
from the search result by the time its handler has run. -/
theorem params_not_immutable_counterexample :
    getInfoA.params = [] ∧
    runParamsAfter okSession [searchA, getInfoA] =
      [[("query", .str "Song A"), ("qtype", .str "track")],
       [("item_uri", .str "spotify:track:t1")]] ∧
    [("item_uri", JVal.str "spotify:track:t1")] ≠ ([] : Dict) :=
  ⟨rfl, rfl, by simp⟩

/-- C8 amended: each handler either leaves the action's parameters mapping
unchanged or writes exactly its one resolvable-reference key — `item_uri`
for get_info, `spotify_uri` for playback, `track_id` for queue — via the
in-place `dset`; the search and playlist handlers never touch the
parameters. -/
theorem params_frame_policy :
    (∀ (σ : SessionFn) (p c : Dict), (handle_search_action σ p c).params = p) ∧
    (∀ (σ : SessionFn) (p c : Dict),
       (handle_get_info_action σ p c).params = p ∨
       ∃ v, (handle_get_info_action σ p c).params = dset p "item_uri" v) ∧
    (∀ (σ : SessionFn) (p c : Dict),
       (handle_playback_action σ p c).params = p ∨
       ∃ v, (handle_playback_action σ p c).params = dset p "spotify_uri" v) ∧
    (∀ (σ : SessionFn) (p c : Dict),
       (handle_queue_action σ p c).params = p ∨
       ∃ v, (handle_queue_action σ p c).params = dset p "track_id" v) ∧
    (∀ (σ : SessionFn) (p c : Dict), (handle_playlist_action σ p c).params = p) :=
  ⟨fun σ p c => (handle_search_state σ p c).1,
   fun σ p c => handle_get_info_params σ p c,
   fun σ p c => (handle_playback_state σ p c).2,
   fun σ p c => (handle_queue_state σ p c).2,
   fun σ p c => (handle_playlist_state σ p c).1⟩
